import Mathlib

/-!
Verification of the practice-session scoring and grading engine of
`pbq_practice_app.py`: answer values, the real-time scoring pass
(`calculate_real_time_score`), the detailed final grading pass
(`calculate_detailed_results`), and the session lifecycle functions
(`start_practice_session`, the end-of-session handler, and the
"Start New Practice" reset).
-/

namespace PBQApp

/-- A dynamic answer value as it occurs in the app's answer dictionaries:
Python `None`, a string, or a list of strings. -/
inductive Val where
  | vnone
  | vstr (s : String)
  | vlist (l : List String)
deriving DecidableEq, Repr

/-- Python `==` between two answer values; comparisons across variants are `False`
(`None == ""` and `[] == ""` are `False` in Python), and list comparison is
element-wise and order-sensitive. -/
def pyEq : Val → Val → Bool
  | .vnone, .vnone => true
  | .vstr s, .vstr t => s == t
  | .vlist l, .vlist l' => l == l'
  | _, _ => false

/-- A Python dict from string keys to answer values (keys are unique). -/
abbrev AnswerDict := List (String × Val)

def dictLookup : AnswerDict → String → Option Val
  | [], _ => none
  | (k, v) :: rest, key => if k == key then some v else dictLookup rest key

/-- `d.get(k)`: Python `None` when the key is absent. -/
def dictGet (d : AnswerDict) (k : String) : Val := (dictLookup d k).getD .vnone

/-- `d.get(k, dflt)`. -/
def dictGetD (d : AnswerDict) (k : String) (dflt : Val) : Val := (dictLookup d k).getD dflt

/-- A value stored in `st.session_state.user_answers` for one question index:
`None`, a scalar string (regular questions), or a dict (PBQ questions; `{}` is the
slot initialized by `start_practice_session`). -/
inductive Answer where
  | anone
  | astr (s : String)
  | amap (m : AnswerDict)
deriving DecidableEq, Repr

/-- Python dict equality: the same key set with `==`-equal values. -/
def dictEq (a b : AnswerDict) : Bool :=
  a.length == b.length && a.all (fun kv => (dictLookup b kv.1).elim false (fun v => pyEq v kv.2))

/-- The `correct_answer` field as stored on a question record. For PBQ grading a
string is handed to `json.loads`; the JSON parser is library code outside this
repository, so a string carries the outcome of that call: `some m` when the string
deserializes to the mapping `m`, `none` when `json.loads` raises. `rdict` is a
record whose `correct_answer` already is a mapping, `rnone` one whose
`correct_answer` is `None`. -/
inductive RawCorrect where
  | rstr (s : String) (parsed : Option AnswerDict)
  | rdict (m : AnswerDict)
  | rnone
deriving DecidableEq, Repr

/-- Python `==` between a stored user answer and the raw `correct_answer` value,
as used by the regular-question branch of `calculate_real_time_score`
(`user_answer == correct_answer`). Cross-type comparisons are `False`. -/
def answerEqRaw : Answer → RawCorrect → Bool
  | .astr s, .rstr t _ => s == t
  | .amap m, .rdict m' => dictEq m m'
  | .anone, .rnone => true
  | _, _ => false

/-- One firewall rule of a Firewall Rules PBQ payload: six candidate-option lists.
Grading touches only the rule's index; the option lists feed the display layer. -/
structure FirewallRule where
  rule_options : List String := []
  source_ip_options : List String := []
  dest_ip_options : List String := []
  protocol_options : List String := []
  port_options : List String := []
  action_options : List String := []
deriving DecidableEq, Repr

/-- The `pbq_data` payload of a question (`{}` when absent: all fields default). -/
structure PbqData where
  instructions : String := ""
  matching_items : List String := []
  all_options : List String := []
  is_multi_select : Bool := false
  firewall_rules : List FirewallRule := []
deriving DecidableEq, Repr

/-- A question-bank record, restricted to the fields the scoring engine reads. -/
structure Question where
  qtype : String := ""
  is_pbq : Bool := false
  correct_answer : RawCorrect := .rnone
  pbq_data : PbqData := {}
deriving DecidableEq, Repr

/-- `s.replace('PBQ - ', '')` on the character list: drop every (left-to-right,
non-overlapping) occurrence of the marker `"PBQ - "`. -/
def stripMarker : List Char → List Char
  | 'P' :: 'B' :: 'Q' :: ' ' :: '-' :: ' ' :: rest => stripMarker rest
  | c :: rest => c :: stripMarker rest
  | [] => []

/-- `question.get('type', '').replace('PBQ - ', '')`. -/
def pbqTypeOf (q : Question) : String := String.mk (stripMarker q.qtype.toList)

/-- The question-level pass test `score / total >= 0.5` of the source, carried out
in exact integer arithmetic: for `total > 0` the float test `score/total >= 0.5`
holds iff `total ≤ 2 * score` (0.5 is a representable binary float, so the rounded
quotient is on the same side of the boundary as the exact one for any feasible
operand size). Every caller guards `total > 0` before this test. -/
def halfLe (score total : Nat) : Bool := decide (total ≤ 2 * score)

/-- Verdict of the real-time pass on a single question. -/
inductive Verdict where
  | correct
  | incorrect
  | unanswered
deriving DecidableEq, Repr

/-- The correct-answer mapping as obtained by `calculate_real_time_score`
(lines 201-206): a string value is passed to `json.loads` (whose failure the
`except` turns into an incorrect verdict, modelled by `none`), a dict is used
as-is, and a `None` value makes the later `len(correct_answers)` raise, which the
same `except` also turns into an incorrect verdict (`none` here as well). -/
def rtParse : RawCorrect → Option AnswerDict
  | .rstr _ p => p
  | .rdict m => some m
  | .rnone => none

/-- Per-item test of the real-time pass: `user_answer.get(item_key) == correct_value`
(an absent key reads as `None`). -/
def rtItemCorrect (user_answer : AnswerDict) (item_key : String) (correct_value : Val) : Bool :=
  pyEq (dictGet user_answer item_key) correct_value

/-- `correct_items` of the real-time pass: the count over the entries of the
parsed correct-answer mapping. -/
def rtCorrectItems (correct_answers user_answer : AnswerDict) : Nat :=
  correct_answers.countP (fun kv => rtItemCorrect user_answer kv.1 kv.2)

/-- The verdict `calculate_real_time_score` reaches for one question (lines
198-248): a PBQ needs a non-empty dict answer, is scored against the
parsed correct-answer mapping with the 0.5 threshold over that mapping's
entries (an empty mapping counts as unanswered, a parse failure as incorrect);
a regular question is unanswered on `None` and otherwise `==`-compared. -/
def rtVerdict (q : Question) (user_answer : Answer) : Verdict :=
  if q.is_pbq then
    match user_answer with
    | .amap m =>
      if m.isEmpty then .unanswered
      else
        match rtParse q.correct_answer with
        | some correct_answers =>
          if correct_answers.length > 0 then
            if halfLe (rtCorrectItems correct_answers m) correct_answers.length then .correct
            else .incorrect
          else .unanswered
        | none => .incorrect
    | _ => .unanswered
  else
    match user_answer with
    | .anone => .unanswered
    | ua => if answerEqRaw ua q.correct_answer then .correct else .incorrect

/-- The running counters of the real-time pass. -/
structure Tally where
  correct : Nat := 0
  incorrect : Nat := 0
  unanswered : Nat := 0
  current_streak : Nat := 0
  best_streak : Nat := 0
deriving DecidableEq, Repr

/-- The counter update for one verdict, exactly as the three branch bodies of
`calculate_real_time_score` perform it: a correct verdict bumps the streak and the
best streak, an incorrect verdict zeroes the streak, and an unanswered question
also zeroes the streak (every `unanswered += 1` site is followed by
`current_streak = 0`). -/
def applyVerdict (t : Tally) : Verdict → Tally
  | .correct =>
    { t with correct := t.correct + 1, current_streak := t.current_streak + 1,
             best_streak := max t.best_streak (t.current_streak + 1) }
  | .incorrect => { t with incorrect := t.incorrect + 1, current_streak := 0 }
  | .unanswered => { t with unanswered := t.unanswered + 1, current_streak := 0 }

/-- `st.session_state.user_answers`: a dict from question index to stored value. -/
abbrev AnswerStore := List (Nat × Answer)

def storeLookup : AnswerStore → Nat → Option Answer
  | [], _ => none
  | (k, v) :: rest, key => if k == key then some v else storeLookup rest key

/-- `user_answers.get(i)`: a missing index reads as Python `None`, which every
consumer treats identically to a stored `None`. -/
def getAnswer (ua : AnswerStore) (i : Nat) : Answer := (storeLookup ua i).getD .anone

/-- The `real_time_score` record. `accuracy` is the percentage
`correct / total_answered * 100` (0 when nothing is answered). -/
structure Score where
  correct : Nat := 0
  incorrect : Nat := 0
  unanswered : Nat := 0
  current_streak : Nat := 0
  best_streak : Nat := 0
  total_answered : Nat := 0
  accuracy : ℚ := 0
deriving DecidableEq, Repr

/-- The sequential loop of `calculate_real_time_score` over (question, answer)
pairs in selected order. -/
def rtFold (t : Tally) (pairs : List (Question × Answer)) : Tally :=
  pairs.foldl (fun acc qa => applyVerdict acc (rtVerdict qa.1 qa.2)) t

/-- The (question, stored answer) pairs of a session, in selected order. -/
def rtPairs (qs : List Question) (ua : AnswerStore) : List (Question × Answer) :=
  qs.enum.map (fun iq => (iq.2, getAnswer ua iq.1))

/-- `calculate_real_time_score`: with no selected questions the early `return`
leaves the previous score; otherwise the counters are rebuilt by one sequential
pass and the snapshot is written out. -/
def calculate_real_time_score (old : Score) (qs : List Question) (ua : AnswerStore) : Score :=
  if qs.isEmpty then old
  else
    let t := rtFold {} (rtPairs qs ua)
    let total_answered := t.correct + t.incorrect
    { correct := t.correct, incorrect := t.incorrect, unanswered := t.unanswered,
      current_streak := t.current_streak, best_streak := t.best_streak,
      total_answered := total_answered,
      accuracy := if total_answered > 0 then (t.correct : ℚ) / (total_answered : ℚ) * 100 else 0 }

/-- One item row of a Classification/Matching detailed result. In multi-select
mode the recorded user and correct values are the coerced lists (the source
reassigns `user_val`/`correct_val` before appending). -/
structure ClsItem where
  number : Nat
  description : String
  user_answer : Val
  correct_answer : Val
  is_correct : Bool
  is_multi_select : Bool
deriving DecidableEq, Repr

/-- One field cell of a Firewall Rules detailed result row. -/
structure FwField where
  name : String
  user_value : Val
  correct_value : Val
  is_correct : Bool
deriving DecidableEq, Repr

/-- One rule row of a Firewall Rules detailed result. -/
structure FwRow where
  rule_number : Nat
  fields : List FwField
  user_row : List (String × Val)
  correct_row : List (String × Val)
  row_score : Nat
  row_total : Nat
deriving DecidableEq, Repr

/-- An entry of `result['items']`: a classification item or a firewall row. -/
inductive ResultItem where
  | cls (item : ClsItem)
  | fw (row : FwRow)
deriving DecidableEq, Repr

/-- One entry of `st.session_state.detailed_results`. Keys the source sets only on
some paths are `Option`s (`none` = key absent); `error` is the marker written by
the `except` handler, and `is_correct` is always written (false unless a pass
succeeded). -/
structure DetailedResult where
  question_num : Nat
  question_type : String
  instructions : String
  items : List ResultItem
  score : Option Nat := none
  total : Option Nat := none
  rows_correct : Option Nat := none
  rows_total : Option Nat := none
  error : Option String := none
  is_correct : Bool := false
deriving DecidableEq, Repr

/-- The multi-select coercion `x if isinstance(x, list) else ([x] if x else [])`:
a list stays, a truthy scalar becomes a singleton, a falsy value becomes `[]`. -/
def toStrList : Val → List String
  | .vlist l => l
  | .vstr s => if s == "" then [] else [s]
  | .vnone => []

/-- Python `set(a) == set(b)` on lists of strings. -/
def strSetEq (a b : List String) : Bool :=
  a.all (fun x => b.contains x) && b.all (fun x => a.contains x)

/-- Item-level comparison of the detailed Classification/Matching pass:
set equality of the coerced lists in multi-select mode, plain `==` otherwise. -/
def clsItemCorrect (is_multi : Bool) (user_val correct_val : Val) : Bool :=
  if is_multi then strSetEq (toStrList user_val) (toStrList correct_val)
  else pyEq user_val correct_val

/-- The per-item default `[] if is_multi_select else ""`. -/
def clsDefault (is_multi : Bool) : Val := if is_multi then .vlist [] else .vstr ""

/-- `user_answer.get(str(idx), dflt) if user_answer else dflt` for the
classification pass, for a falsy or dict `user_answer` (a truthy non-dict value
instead raises `AttributeError`; `gradeCls` models that branch separately). -/
def clsUserVal (user_answer : Answer) (idx : Nat) (is_multi : Bool) : Val :=
  match user_answer with
  | .amap m => if m.isEmpty then clsDefault is_multi
               else dictGetD m (toString idx) (clsDefault is_multi)
  | _ => clsDefault is_multi

/-- The item loop of the detailed Classification/Matching pass (lines 296-320). -/
def gradeClsItems (matching_items : List String) (is_multi : Bool)
    (correct_answers : AnswerDict) (user_answer : Answer) : List ClsItem :=
  matching_items.enum.map (fun it =>
    let uv := clsUserVal user_answer it.1 is_multi
    let cv := dictGetD correct_answers (toString it.1) (clsDefault is_multi)
    { number := it.1 + 1, description := it.2,
      user_answer := if is_multi then Val.vlist (toStrList uv) else uv,
      correct_answer := if is_multi then Val.vlist (toStrList cv) else cv,
      is_correct := clsItemCorrect is_multi uv cv,
      is_multi_select := is_multi })

/-- A user answer that is truthy but not a dict: its `.get` raises
`AttributeError`, which the surrounding `except` catches. -/
def nonDictTruthy : Answer → Bool
  | .astr s => s != ""
  | _ => false

/-- The Classification/Matching branch of `calculate_detailed_results`
(lines 290-330) together with its share of the surrounding `try`/`except`:
a truthy non-dict answer raises on the first item access, and zero matching
items make `correct_items / len(matching_items)` raise `ZeroDivisionError`
(after `score` and `total` were already written); either exception lands in the
`except` handler, which records an error marker and counts the question
incorrect. The second component is the question's contribution to the
`correct_count` / `incorrect_count` tally. -/
def gradeCls (base : DetailedResult) (q : Question) (correct_answers : AnswerDict)
    (user_answer : Answer) : DetailedResult × Option Bool :=
  let mitems := q.pbq_data.matching_items
  let multi := q.pbq_data.is_multi_select
  if nonDictTruthy user_answer && !mitems.isEmpty then
    ({ base with error := some "AttributeError" }, some false)
  else
    let its := gradeClsItems mitems multi correct_answers user_answer
    let correct_items := its.countP (fun it => it.is_correct)
    let r := { base with
               items := its.map ResultItem.cls
               score := some correct_items
               total := some mitems.length }
    if mitems.length == 0 then
      ({ r with error := some "division by zero" }, some false)
    else if halfLe correct_items mitems.length then
      ({ r with is_correct := true }, some true)
    else (r, some false)

/-- The six per-row fields of a Firewall Rules question, in source order. -/
def fwFields : List String := ["rule", "source_ip", "dest_ip", "protocol", "port", "action"]

/-- `field.replace('_', ' ').title()` for the display name of a field. -/
def fieldTitle (f : String) : String :=
  String.intercalate " " (((f.replace "_" " ").splitOn " ").map (fun w => w.capitalize))

/-- `user_answer.get(key, "") if user_answer else ""` for the firewall pass
(truthy non-dict answers are handled by `gradeFw`'s `AttributeError` branch). -/
def fwUserVal (user_answer : Answer) (key : String) : Val :=
  match user_answer with
  | .amap m => if m.isEmpty then .vstr "" else dictGetD m key (.vstr "")
  | _ => .vstr ""

/-- One rule row of the detailed Firewall Rules pass (lines 339-377). -/
def gradeFwRow (rule_idx : Nat) (correct_answers : AnswerDict) (user_answer : Answer) : FwRow :=
  let fs := fwFields.map (fun field =>
    let key := toString rule_idx ++ "_" ++ field
    let uv := fwUserVal user_answer key
    let cv := dictGetD correct_answers key (.vstr "")
    ({ name := fieldTitle field, user_value := uv, correct_value := cv,
       is_correct := pyEq uv cv } : FwField))
  { rule_number := rule_idx + 1, fields := fs,
    user_row := fwFields.map (fun field =>
      (field, fwUserVal user_answer (toString rule_idx ++ "_" ++ field))),
    correct_row := fwFields.map (fun field =>
      (field, dictGetD correct_answers (toString rule_idx ++ "_" ++ field) (.vstr ""))),
    row_score := fs.countP (fun f => f.is_correct),
    row_total := fwFields.length }

/-- The Firewall Rules branch of `calculate_detailed_results` (lines 332-389)
with its share of the `try`/`except`, analogous to `gradeCls`: zero rules make
`correct_fields / total_fields` divide by zero. -/
def gradeFw (base : DetailedResult) (q : Question) (correct_answers : AnswerDict)
    (user_answer : Answer) : DetailedResult × Option Bool :=
  let rules := q.pbq_data.firewall_rules
  if nonDictTruthy user_answer && !rules.isEmpty then
    ({ base with error := some "AttributeError" }, some false)
  else
    let rows := (List.range rules.length).map (fun rIdx => gradeFwRow rIdx correct_answers user_answer)
    let correct_fields := (rows.map (fun r => r.row_score)).sum
    let total_fields := (rows.map (fun r => r.row_total)).sum
    let correct_rows := rows.countP (fun r => r.row_score == r.row_total)
    let r := { base with
               items := rows.map ResultItem.fw
               score := some correct_fields
               total := some total_fields
               rows_correct := some correct_rows
               rows_total := some rules.length }
    if total_fields == 0 then
      ({ r with error := some "division by zero" }, some false)
    else if halfLe correct_fields total_fields then
      ({ r with is_correct := true }, some true)
    else (r, some false)

/-- The parse step of the detailed pass (lines 285-288):
`json.loads(raw) if raw else ` the empty dict when `correct_answer` is a string
(an empty string short-circuits to the empty dict without parsing), and
`raw or ` the empty dict otherwise. `Except.error` is the `json.loads` exception. -/
def detailedParse : RawCorrect → Except String AnswerDict
  | .rstr s p => if s == "" then .ok [] else
      match p with
      | some m => .ok m
      | none => .error "json parse error"
  | .rdict m => .ok m
  | .rnone => .ok []

/-- The body of the per-question loop of `calculate_detailed_results` (lines
269-396): build the result skeleton, and grade only PBQ questions, dispatching on
the stripped type string; a parse failure of `correct_answer` is caught and
recorded as an error marker plus an incorrect tally contribution. A regular
question, or a PBQ of an unknown type, is not graded: its result keeps
`is_correct = false` and it contributes to neither count (`none`). -/
def gradeQuestion (i : Nat) (q : Question) (user_answer : Answer) : DetailedResult × Option Bool :=
  let base : DetailedResult :=
    { question_num := i + 1, question_type := pbqTypeOf q,
      instructions := q.pbq_data.instructions, items := [] }
  if q.is_pbq then
    match detailedParse q.correct_answer with
    | .error e => ({ base with error := some e }, some false)
    | .ok correct_answers =>
      if pbqTypeOf q == "Classification/Matching" then gradeCls base q correct_answers user_answer
      else if pbqTypeOf q == "Firewall Rules" then gradeFw base q correct_answers user_answer
      else (base, none)
  else (base, none)

/-- The outcome of the final pass: the detailed results in question order plus
the authoritative correct/incorrect counts. -/
structure DetailedOutcome where
  results : List DetailedResult
  correct_count : Nat
  incorrect_count : Nat
deriving DecidableEq, Repr

/-- 1 when the contribution is a correct verdict. -/
def contribCorrect : Option Bool → Nat
  | some true => 1
  | _ => 0

/-- 1 when the contribution is an incorrect verdict. -/
def contribIncorrect : Option Bool → Nat
  | some false => 1
  | _ => 0

/-- The per-question loop of `calculate_detailed_results`, over the enumerated
selected questions. -/
def detailedLoop (ua : AnswerStore) : List (Nat × Question) → DetailedOutcome
  | [] => { results := [], correct_count := 0, incorrect_count := 0 }
  | iq :: rest =>
    let rc := gradeQuestion iq.1 iq.2 (getAnswer ua iq.1)
    let o := detailedLoop ua rest
    { results := rc.1 :: o.results,
      correct_count := contribCorrect rc.2 + o.correct_count,
      incorrect_count := contribIncorrect rc.2 + o.incorrect_count }

/-- `calculate_detailed_results` (lines 262-396): one detailed result per
selected question, in order, plus the final correct/incorrect tally. -/
def calculate_detailed_results (qs : List Question) (ua : AnswerStore) : DetailedOutcome :=
  detailedLoop ua qs.enum

/-- The final write-back into `real_time_score` (lines 398-402): `correct`,
`incorrect`, `total_answered` and `accuracy` are overwritten from the detailed
pass; `unanswered` and the streak fields keep their previous values. -/
def finalScoreUpdate (old : Score) (qs : List Question) (ua : AnswerStore) : Score :=
  let o := calculate_detailed_results qs ua
  let n := qs.length
  { old with
    correct := o.correct_count
    incorrect := o.incorrect_count
    total_answered := n
    accuracy := if n > 0 then (o.correct_count : ℚ) / (n : ℚ) * 100 else 0 }

/-- The `st.session_state` fields the practice engine owns. `shuffle_cache`
collects the dynamically keyed entries `st.session_state["shuffled_options_i"]`
and `st.session_state["shuffled_i_r_field"]` holding per-session shuffled option
orders. -/
structure SessionState where
  practice_started : Bool := false
  current_question_index : Nat := 0
  user_answers : AnswerStore := []
  session_results : List (Nat × Val) := []
  show_answers : Bool := false
  detailed_results : List DetailedResult := []
  selected_questions : List Question := []
  shuffle_questions : Bool := false
  shuffle_options : Bool := false
  question_bank : List Question := []
  shuffle_cache : List (String × List String) := []
  real_time_score : Score := {}

/-- The answer-slot initialization of `start_practice_session` (lines 170-172):
with `user_answers` just cleared, every selected index gets an empty dict. -/
def initSlots (n : Nat) : AnswerStore := (List.range n).map (fun i => (i, Answer.amap []))

/-- `start_practice_session` (lines 151-174). `random.shuffle` is abstracted as
the permutation `perm`, applied only when question shuffling is enabled. The
function clears answers, results and the cursor, defaults the selection to the
first `min(10, bank size)` bank questions when empty, and initializes an empty
answer slot per selected question. It does not touch `shuffle_cache`. -/
def start_practice_session (perm : List Question → List Question) (s : SessionState) :
    SessionState :=
  let sel0 := if s.selected_questions.isEmpty then
                (if s.question_bank.length > 0 then
                  s.question_bank.take (min 10 s.question_bank.length)
                 else s.selected_questions)
              else s.selected_questions
  let sel := if s.shuffle_questions then perm sel0 else sel0
  { s with
    practice_started := true
    current_question_index := 0
    session_results := []
    show_answers := false
    detailed_results := []
    selected_questions := sel
    user_answers := initSlots sel.length }

/-- `end_practice_session` (lines 176-181): leave the in-progress phase, reveal
answers, and run the detailed grading pass, which also overwrites the score. -/
def end_practice_session (s : SessionState) : SessionState :=
  { s with
    practice_started := false
    show_answers := true
    detailed_results := (calculate_detailed_results s.selected_questions s.user_answers).results
    real_time_score := finalScoreUpdate s.real_time_score s.selected_questions s.user_answers }

/-- The "Start New Practice" button handler (lines 1005-1009): reset the session
flags, answers, cursor and detailed results. It does not touch `shuffle_cache`. -/
def start_new_practice (s : SessionState) : SessionState :=
  { s with
    practice_started := false
    show_answers := false
    user_answers := []
    current_question_index := 0
    detailed_results := [] }

def cacheLookup : List (String × List String) → String → Option (List String)
  | [], _ => none
  | (k, v) :: rest, key => if k == key then some v else cacheLookup rest key

/-- The option-order resolution of `display_matching_pbq` (lines 566-571): with
option shuffling enabled, the cached order under the key
`shuffled_options_` + index is reused when present and created once (via the
permutation `perm`, standing for `random.sample`) otherwise; with shuffling
disabled the raw order is displayed. Returns the displayed order and the
(possibly extended) state. -/
def displayOptions (perm : List String → List String) (s : SessionState) (i : Nat)
    (all_options : List String) : List String × SessionState :=
  if s.shuffle_options then
    let key := "shuffled_options_" ++ toString i
    match cacheLookup s.shuffle_cache key with
    | some cached => (cached, s)
    | none =>
      let sh := perm all_options
      (sh, { s with shuffle_cache := s.shuffle_cache ++ [(key, sh)] })
  else (all_options, s)

/-! Concrete fixtures used by witnesses and counterexamples. -/

/-- A regular (non-PBQ) question whose `correct_answer` is the plain string
`ans` (such a string is not valid JSON, hence the `none` parse outcome). -/
def regQ (ans : String) : Question :=
  { qtype := "", is_pbq := false, correct_answer := .rstr ans none }

/-- A one-item multi-select Classification/Matching question whose item 0 has
the correct selection set `X, Y`. -/
def msQ : Question :=
  { qtype := "PBQ - Classification/Matching", is_pbq := true,
    correct_answer := .rdict [("0", .vlist ["X", "Y"])],
    pbq_data := { matching_items := ["A"], is_multi_select := true } }

/-- A three-item single-select Classification/Matching question. -/
def wideQ : Question :=
  { qtype := "PBQ - Classification/Matching", is_pbq := true,
    correct_answer := .rdict [("0", .vstr "A"), ("1", .vstr "B"), ("2", .vstr "C")],
    pbq_data := { matching_items := ["i0", "i1", "i2"] } }

/-- A two-item single-select Classification/Matching question. -/
def clsHalfQ : Question :=
  { qtype := "PBQ - Classification/Matching", is_pbq := true,
    correct_answer := .rdict [("0", .vstr "X"), ("1", .vstr "Y")],
    pbq_data := { matching_items := ["A", "B"] } }

/-- The canonical answer of a one-rule Firewall Rules question. -/
def fwCorrect : AnswerDict :=
  [("0_rule", .vstr "1"), ("0_source_ip", .vstr "10.0.0.1"), ("0_dest_ip", .vstr "10.0.0.2"),
   ("0_protocol", .vstr "TCP"), ("0_port", .vstr "80"), ("0_action", .vstr "Allow")]

/-- A one-rule Firewall Rules question. -/
def fwQ : Question :=
  { qtype := "PBQ - Firewall Rules", is_pbq := true,
    correct_answer := .rdict fwCorrect,
    pbq_data := { firewall_rules := [{}] } }

/-- A fully correct answer to `fwQ` (6 of 6 fields). -/
def uaAll6 : Answer := .amap fwCorrect

/-- An answer to `fwQ` with 3 of 6 fields correct. -/
def ua3 : Answer := .amap
  [("0_rule", .vstr "1"), ("0_source_ip", .vstr "10.0.0.1"), ("0_dest_ip", .vstr "10.0.0.2"),
   ("0_protocol", .vstr "UDP"), ("0_port", .vstr "443"), ("0_action", .vstr "Deny")]

/-- An answer to `fwQ` with 2 of 6 fields correct. -/
def ua2 : Answer := .amap
  [("0_rule", .vstr "1"), ("0_source_ip", .vstr "10.0.0.1"), ("0_dest_ip", .vstr "bad"),
   ("0_protocol", .vstr "UDP"), ("0_port", .vstr "443"), ("0_action", .vstr "Deny")]

/-- A Classification/Matching question with zero items. -/
def zeroQ : Question :=
  { qtype := "PBQ - Classification/Matching", is_pbq := true,
    correct_answer := .rdict [], pbq_data := { matching_items := [] } }

/-- A PBQ whose `correct_answer` string does not parse as JSON. -/
def malformedQ : Question :=
  { qtype := "PBQ - Classification/Matching", is_pbq := true,
    correct_answer := .rstr "not valid json" none,
    pbq_data := { matching_items := ["A"] } }

/-- A finished session carrying answers, results and a populated option-shuffle
cache entry for question index 0. -/
def prevSession : SessionState :=
  { show_answers := true, shuffle_options := true,
    selected_questions := [msQ],
    user_answers := [(0, .amap [("0", .vlist ["X"])])],
    shuffle_cache := [("shuffled_options_0", ["B", "A"])] }

/-- Python `==` between two stored answer values (used by the
`if answer != user_answer` guard of `display_regular_question`): comparisons
across types — `None` vs a dict, a string vs a dict — are `False`. -/
def answerPyEq : Answer → Answer → Bool
  | .anone, .anone => true
  | .astr s, .astr t => s == t
  | .amap m, .amap m' => dictEq m m'
  | _, _ => false

/-- `user_answers[i] = v`: overwrite the entry of an existing key, append a new
key at the end (Python dict insertion-order assignment). -/
def storeSet : AnswerStore → Nat → Answer → AnswerStore
  | [], i, v => [(i, v)]
  | (k, w) :: rest, i, v => if k == i then (k, v) :: rest else (k, w) :: storeSet rest i v

/-- The answer write-back of `display_regular_question` (lines 510-522): the
radio widget returns an option string once one is selected, and Python `None`
before any selection (its initial `index` is `None` whenever the stored value —
e.g. the `start_practice_session` slot, an empty dict — is not one of the
options). When the returned `answer` differs from the stored value it is
written into the answer store and the real-time score is recomputed. -/
def display_regular_write (answer : Answer) (s : SessionState) : SessionState :=
  let i := s.current_question_index
  let stored := getAnswer s.user_answers i
  if answerPyEq answer stored then s
  else
    let ua := storeSet s.user_answers i answer
    { s with
      user_answers := ua
      real_time_score := calculate_real_time_score s.real_time_score s.selected_questions ua }

/-- A freshly started session over a one-question bank holding one Regular
question. -/
def startedRegSession : SessionState :=
  start_practice_session id { question_bank := [regQ "A"] }

/-- The verdict sequence the real-time pass assigns to a session, in selected
question order. -/
def verdictsOf (qs : List Question) (ua : AnswerStore) : List Verdict :=
  (rtPairs qs ua).map (fun p => rtVerdict p.1 p.2)

/-- Folding the per-verdict counter update over a verdict sequence. -/
def applyVerdicts (t : Tally) (vs : List Verdict) : Tally := vs.foldl applyVerdict t

/-! Helper lemmas. -/

/-- The tally of the real-time pass is determined by the verdict sequence
alone. -/
theorem rtFold_eq_applyVerdicts (t : Tally) (ps : List (Question × Answer)) :
    rtFold t ps = applyVerdicts t (ps.map (fun p => rtVerdict p.1 p.2)) := by
  rw [rtFold, applyVerdicts, List.foldl_map]

/-- Writing a slot makes the subsequent lookup of that key find the value. -/
theorem storeLookup_storeSet (ua : AnswerStore) (i : Nat) (v : Answer) :
    storeLookup (storeSet ua i v) i = some v := by
  induction ua with
  | nil => simp [storeSet, storeLookup]
  | cons kv rest ih =>
    obtain ⟨k, w⟩ := kv
    by_cases h : k = i
    · simp [storeSet, storeLookup, h]
    · have hb : (k == i) = false := by simpa using h
      simp [storeSet, storeLookup, hb, ih]

/-- `answerPyEq` against `None` holds only for `None` itself. -/
theorem answerPyEq_anone (a : Answer) (h : answerPyEq Answer.anone a = true) :
    a = Answer.anone := by
  cases a with
  | anone => rfl
  | astr s => simp [answerPyEq] at h
  | amap m => simp [answerPyEq] at h

/-- Looking an index up in a constant-valued slot list finds the value exactly
on the listed indices. -/
theorem storeLookup_map_const (l : List Nat) (i : Nat) (v : Answer) :
    storeLookup (l.map (fun j => (j, v))) i = if i ∈ l then some v else none := by
  induction l with
  | nil => simp [storeLookup]
  | cons a rest ih =>
    simp only [List.map_cons, storeLookup, List.mem_cons, ih]
    by_cases h : a = i
    · simp [h]
    · have hb : (a == i) = false := by simpa using h
      have h2 : ¬ (i = a) := fun hh => h hh.symm
      simp [hb, h2]

/-- Every index below `n` has the freshly initialized empty-dict slot. -/
theorem storeLookup_initSlots (n i : Nat) (h : i < n) :
    storeLookup (initSlots n) i = some (Answer.amap []) := by
  rw [initSlots, storeLookup_map_const]
  simp [List.mem_range, h]

/-- The results of the final pass are the per-question gradings, one per
enumerated question, independent of each other. -/
theorem detailedLoop_results (ua : AnswerStore) (l : List (Nat × Question)) :
    (detailedLoop ua l).results =
      l.map (fun iq => (gradeQuestion iq.1 iq.2 (getAnswer ua iq.1)).1) := by
  induction l with
  | nil => rfl
  | cons a rest ih => simp [detailedLoop, ih]

/-! Claim theorems. -/

/-- Claim C1: for every Regular question whose submitted answer is `None`, the
real-time scoring pass reaches the unanswered verdict — never incorrect — for
any `correct_answer` value, and the corresponding counter update increments
`unanswered` while leaving `incorrect` untouched. -/
theorem C1_regular_none_unanswered (q : Question) (t : Tally) (hq : q.is_pbq = false) :
    rtVerdict q Answer.anone = Verdict.unanswered ∧
    (applyVerdict t (rtVerdict q Answer.anone)).unanswered = t.unanswered + 1 ∧
    (applyVerdict t (rtVerdict q Answer.anone)).incorrect = t.incorrect := by
  have hv : rtVerdict q Answer.anone = Verdict.unanswered := by
    simp [rtVerdict, hq]
  exact ⟨hv, by rw [hv]; rfl, by rw [hv]; rfl⟩

theorem C1_witness :
    rtVerdict (regQ "A") Answer.anone = Verdict.unanswered ∧
    (applyVerdict {} (rtVerdict (regQ "A") Answer.anone)).unanswered = Tally.unanswered {} + 1 ∧
    (applyVerdict {} (rtVerdict (regQ "A") Answer.anone)).incorrect = Tally.incorrect {} :=
  C1_regular_none_unanswered (regQ "A") {} rfl

/-- Claim C2 counterexample: the real-time pass resets the running streak on an
unanswered question. A session whose sequential verdicts are
[correct, unanswered] ends the pass with `current_streak = 0`, not the 1 the
claim's leave-the-streak-unchanged rule demands. -/
theorem C2_counterexample :
    verdictsOf [regQ "A", regQ "B"] [(0, .astr "A")] =
      [Verdict.correct, Verdict.unanswered] ∧
    (calculate_real_time_score {} [regQ "A", regQ "B"] [(0, .astr "A")]).current_streak = 0 ∧
    ¬ (calculate_real_time_score {} [regQ "A", regQ "B"] [(0, .astr "A")]).current_streak = 1 :=
  ⟨by decide, by rfl, by decide⟩

/-- Claim C2 amended: in the real-time pass over the selected questions in
sequential order, `current_streak` increments — and `best_streak` updates —
only on a correct verdict, and `current_streak` resets to 0 on an incorrect
verdict AND also on an unanswered one (the code zeroes the streak at every
`unanswered` site); for ANY session whose sequential verdicts are
[correct, correct, incorrect, correct], the resulting snapshot still has
`best_streak = 2` and `current_streak = 1`. -/
theorem C2_streaks (qs : List Question) (ua : AnswerStore) (old : Score)
    (t : Tally) (v : Verdict)
    (hv : verdictsOf qs ua =
      [Verdict.correct, Verdict.correct, Verdict.incorrect, Verdict.correct]) :
    ((applyVerdict t v).current_streak =
        (if v = Verdict.correct then t.current_streak + 1 else 0) ∧
      (applyVerdict t v).best_streak =
        (if v = Verdict.correct then max t.best_streak (t.current_streak + 1)
         else t.best_streak)) ∧
    (calculate_real_time_score old qs ua).best_streak = 2 ∧
    (calculate_real_time_score old qs ua).current_streak = 1 := by
  have hlen : qs.length = 4 := by
    have h4 := congrArg List.length hv
    simpa [verdictsOf, rtPairs] using h4
  have hne : qs.isEmpty = false := by
    cases qs with
    | nil => simp at hlen
    | cons a l => rfl
  have hfold : rtFold {} (rtPairs qs ua) =
      applyVerdicts {}
        [Verdict.correct, Verdict.correct, Verdict.incorrect, Verdict.correct] := by
    rw [rtFold_eq_applyVerdicts]
    exact congrArg (applyVerdicts {}) hv
  refine ⟨by cases v <;> simp [applyVerdict], ?_, ?_⟩ <;>
    (simp [calculate_real_time_score, hne, hfold]; rfl)

theorem C2_witness :
    ((applyVerdict {} Verdict.unanswered).current_streak =
        (if Verdict.unanswered = Verdict.correct
         then Tally.current_streak {} + 1 else 0) ∧
      (applyVerdict {} Verdict.unanswered).best_streak =
        (if Verdict.unanswered = Verdict.correct
         then max (Tally.best_streak {}) (Tally.current_streak {} + 1)
         else Tally.best_streak {})) ∧
    (calculate_real_time_score {} [regQ "A", regQ "B", regQ "C", regQ "D"]
      [(0, .astr "A"), (1, .astr "B"), (2, .astr "X"), (3, .astr "D")]).best_streak = 2 ∧
    (calculate_real_time_score {} [regQ "A", regQ "B", regQ "C", regQ "D"]
      [(0, .astr "A"), (1, .astr "B"), (2, .astr "X"), (3, .astr "D")]).current_streak = 1 :=
  C2_streaks [regQ "A", regQ "B", regQ "C", regQ "D"]
    [(0, .astr "A"), (1, .astr "B"), (2, .astr "X"), (3, .astr "D")]
    {} {} Verdict.unanswered (by decide)

/-- Claim C3 counterexample: starting a new practice session does not clear the
option-shuffle cache: the cached order of the prior session survives
`start_practice_session` and is reused by the display layer of the new session
(the fresh permutation — here the identity, which would give ["A", "B"] — is
never consulted). -/
theorem C3_counterexample :
    ¬ (start_practice_session id prevSession).shuffle_cache = [] ∧
    (start_practice_session id prevSession).shuffle_cache =
      [("shuffled_options_0", ["B", "A"])] ∧
    (displayOptions id (start_practice_session id prevSession) 0 ["A", "B"]).1 = ["B", "A"] ∧
    ¬ (displayOptions id (start_practice_session id prevSession) 0 ["A", "B"]).1 = ["A", "B"] :=
  ⟨by decide, by decide, by decide, by decide⟩

/-- Claim C3 amended: starting a session resets the cursor, answer store
(to a fresh empty slot per selected index), session results, detailed results
and flags, and the "Start New Practice" reset likewise clears answers, cursor
and detailed results — but neither operation clears the option-shuffle cache,
whose entries persist into the next session. -/
theorem C3_start_resets_but_keeps_cache
    (perm : List Question → List Question) (s : SessionState) :
    (start_practice_session perm s).current_question_index = 0 ∧
    (start_practice_session perm s).user_answers =
      initSlots (start_practice_session perm s).selected_questions.length ∧
    (start_practice_session perm s).detailed_results = [] ∧
    (start_practice_session perm s).session_results = [] ∧
    (start_practice_session perm s).show_answers = false ∧
    (start_practice_session perm s).shuffle_cache = s.shuffle_cache ∧
    (start_new_practice s).shuffle_cache = s.shuffle_cache ∧
    (start_new_practice s).user_answers = [] ∧
    (start_new_practice s).detailed_results = [] ∧
    (start_new_practice s).current_question_index = 0 :=
  ⟨rfl, rfl, rfl, rfl, rfl, rfl, rfl, rfl, rfl, rfl⟩

theorem C3_witness :
    (start_practice_session id prevSession).current_question_index = 0 ∧
    (start_practice_session id prevSession).user_answers =
      initSlots (start_practice_session id prevSession).selected_questions.length ∧
    (start_practice_session id prevSession).detailed_results = [] ∧
    (start_practice_session id prevSession).session_results = [] ∧
    (start_practice_session id prevSession).show_answers = false ∧
    (start_practice_session id prevSession).shuffle_cache = prevSession.shuffle_cache ∧
    (start_new_practice prevSession).shuffle_cache = prevSession.shuffle_cache ∧
    (start_new_practice prevSession).user_answers = [] ∧
    (start_new_practice prevSession).detailed_results = [] ∧
    (start_new_practice prevSession).current_question_index = 0 :=
  C3_start_resets_but_keeps_cache id prevSession

/-- The sum of a constant-6 map is six times the length. -/
theorem sum_map_const_six {α : Type} (l : List α) :
    (l.map (fun _ => (6 : Nat))).sum = 6 * l.length := by
  induction l with
  | nil => rfl
  | cons a r ih => simp [ih, Nat.mul_succ]; omega

/-- The field-level denominator of the detailed Firewall Rules pass is the full
canonical field set: six fields per rule. -/
theorem gradeFw_total (base : DetailedResult) (q : Question) (ca : AnswerDict)
    (ua : Answer) (hu : nonDictTruthy ua = false) :
    (gradeFw base q ca ua).1.total = some (6 * q.pbq_data.firewall_rules.length) := by
  have hsum : (((List.range q.pbq_data.firewall_rules.length).map
      (fun rIdx => gradeFwRow rIdx ca ua)).map (fun r => r.row_total)).sum =
      6 * q.pbq_data.firewall_rules.length := by
    rw [List.map_map]
    have hc : ((fun r => FwRow.row_total r) ∘ fun rIdx => gradeFwRow rIdx ca ua) =
        fun _ => (6 : Nat) := funext fun _ => rfl
    rw [hc, sum_map_const_six, List.length_range]
  simp only [gradeFw, hu, Bool.false_and, Bool.false_eq_true, if_false]
  rw [hsum]
  split
  · rfl
  · split <;> rfl

/-- Claim C4 counterexample: the two passes disagree on the same item ("0" of a
multi-select question): the real-time pass compares the raw lists and judges the
reordered submission wrong — the whole question incorrect — while the final pass
compares sets and judges it right. The real-time threshold moreover runs over
the parsed correct-answer key set, not the submitted-item set: one submitted
item matching out of three correct-answer keys is 1/1 over the submitted set,
yet the real-time verdict is incorrect (1/3 < 0.5). -/
theorem C4_counterexample :
    rtItemCorrect [("0", .vlist ["Y", "X"])] "0" (.vlist ["X", "Y"]) = false ∧
    clsItemCorrect true (.vlist ["Y", "X"]) (.vlist ["X", "Y"]) = true ∧
    rtVerdict msQ (.amap [("0", .vlist ["Y", "X"])]) = Verdict.incorrect ∧
    (gradeQuestion 0 msQ (.amap [("0", .vlist ["Y", "X"])])).1.is_correct = true ∧
    rtVerdict wideQ (.amap [("0", .vstr "A")]) = Verdict.incorrect :=
  ⟨by decide, by decide, by decide, by decide, by decide⟩

/-- Claim C4 amended: both passes decide the question with the same inclusive
one-half threshold (`halfLe`), but over different sets with different item
comparisons: the real-time pass counts raw `==` matches over the parsed
correct-answer key set (its denominator is that key set's size), while the
final pass grades over the canonical sets — the matching-item list for
Classification/Matching and six fields per rule for Firewall Rules — with the
type-aware comparison; the per-item judgments of the two passes therefore need
not agree on a shared item. -/
theorem C4_dual_pass (q q' : Question) (m ca ca' : AnswerDict) (base : DetailedResult)
    (ua : Answer) (hq : q.is_pbq = true) (hm : m.isEmpty = false)
    (hp : rtParse q.correct_answer = some ca) (hc : 0 < ca.length)
    (hu : nonDictTruthy ua = false) :
    rtVerdict q (.amap m) =
      (if halfLe (rtCorrectItems ca m) ca.length then Verdict.correct
       else Verdict.incorrect) ∧
    (gradeCls base q' ca' ua).1.total = some q'.pbq_data.matching_items.length ∧
    (gradeFw base q' ca' ua).1.total = some (6 * q'.pbq_data.firewall_rules.length) := by
  refine ⟨?_, ?_, gradeFw_total base q' ca' ua hu⟩
  · simp [rtVerdict, hq, hm, hp, hc]
  · simp only [gradeCls, hu, Bool.false_and, Bool.false_eq_true, if_false]
    split
    · rfl
    · split <;> rfl

theorem C4_witness :
    rtVerdict wideQ (.amap [("0", .vstr "A")]) =
      (if halfLe (rtCorrectItems [("0", .vstr "A"), ("1", .vstr "B"), ("2", .vstr "C")]
          [("0", .vstr "A")]) 3 then Verdict.correct else Verdict.incorrect) ∧
    (gradeCls { question_num := 1, question_type := "Classification/Matching",
                instructions := "", items := [] } clsHalfQ
        [("0", .vstr "X"), ("1", .vstr "Y")] Answer.anone).1.total =
      some clsHalfQ.pbq_data.matching_items.length ∧
    (gradeFw { question_num := 1, question_type := "Classification/Matching",
               instructions := "", items := [] } clsHalfQ
        [("0", .vstr "X"), ("1", .vstr "Y")] Answer.anone).1.total =
      some (6 * clsHalfQ.pbq_data.firewall_rules.length) :=
  C4_dual_pass wideQ clsHalfQ [("0", .vstr "A")]
    [("0", .vstr "A"), ("1", .vstr "B"), ("2", .vstr "C")]
    [("0", .vstr "X"), ("1", .vstr "Y")]
    { question_num := 1, question_type := "Classification/Matching",
      instructions := "", items := [] }
    Answer.anone rfl rfl rfl (by decide) rfl

/-- Claim C5 counterexample: the final pass does not grade Regular questions.
A session whose single Regular question was answered correctly (the real-time
verdict is correct) compiles to a final tally of 0 correct and 0 incorrect, and
the question's detailed result has `is_correct = false`. -/
theorem C5_counterexample :
    rtVerdict (regQ "A") (Answer.astr "A") = Verdict.correct ∧
    (calculate_detailed_results [regQ "A"] [(0, .astr "A")]).correct_count = 0 ∧
    (calculate_detailed_results [regQ "A"] [(0, .astr "A")]).incorrect_count = 0 ∧
    ((calculate_detailed_results [regQ "A"] [(0, .astr "A")]).results.map
      (fun r => r.is_correct)) = [false] :=
  ⟨by decide, by decide, by decide, by decide⟩

/-- Claim C5 amended: on finish the result compiler produces exactly one
DetailedResult per selected question, but it re-grades only PBQ questions: a
Regular question's result is the bare skeleton with `is_correct = false`, no
item breakdown and no score, and it contributes to neither the correct nor the
incorrect tally. -/
theorem C5_final_pass (qs : List Question) (ua : AnswerStore) (i : Nat) (q : Question)
    (a : Answer) (hq : q.is_pbq = false) :
    (calculate_detailed_results qs ua).results.length = qs.length ∧
    gradeQuestion i q a =
      ({ question_num := i + 1, question_type := pbqTypeOf q,
         instructions := q.pbq_data.instructions, items := [] }, none) := by
  constructor
  · rw [calculate_detailed_results, detailedLoop_results]
    simp
  · simp [gradeQuestion, hq]

theorem C5_witness :
    (calculate_detailed_results [regQ "A"] []).results.length = [regQ "A"].length ∧
    gradeQuestion 0 (regQ "A") (.astr "A") =
      ({ question_num := 1, question_type := pbqTypeOf (regQ "A"),
         instructions := (regQ "A").pbq_data.instructions, items := [] }, none) :=
  C5_final_pass [regQ "A"] [] 0 (regQ "A") (.astr "A") rfl

/-- Claim C6: the 0.5 question-level threshold of the final pass is inclusive:
any score of exactly half the total passes, the Classification/Matching example
with 1 of 2 items correct has `is_correct = true`, and the one-rule Firewall
Rules question passes with 6/6 and with exactly 3/6 fields correct but fails
with 2/6. -/
theorem C6_threshold_inclusive (c : Nat) :
    halfLe c (2 * c) = true ∧
    (gradeQuestion 0 clsHalfQ (.amap [("0", .vstr "X"), ("1", .vstr "Z")])).1.score = some 1 ∧
    (gradeQuestion 0 clsHalfQ (.amap [("0", .vstr "X"), ("1", .vstr "Z")])).1.total = some 2 ∧
    (gradeQuestion 0 clsHalfQ (.amap [("0", .vstr "X"), ("1", .vstr "Z")])).1.is_correct = true ∧
    (gradeQuestion 0 fwQ uaAll6).1.score = some 6 ∧
    (gradeQuestion 0 fwQ uaAll6).1.rows_correct = some 1 ∧
    (gradeQuestion 0 fwQ uaAll6).1.rows_total = some 1 ∧
    (gradeQuestion 0 fwQ uaAll6).1.is_correct = true ∧
    (gradeQuestion 0 fwQ ua3).1.score = some 3 ∧
    (gradeQuestion 0 fwQ ua3).1.is_correct = true ∧
    (gradeQuestion 0 fwQ ua2).1.score = some 2 ∧
    (gradeQuestion 0 fwQ ua2).1.is_correct = false :=
  ⟨by simp [halfLe], by decide, by decide, by decide, by decide, by decide, by decide,
   by decide, by decide, by decide, by decide, by decide⟩

theorem C6_witness :
    halfLe 1 (2 * 1) = true ∧
    (gradeQuestion 0 clsHalfQ (.amap [("0", .vstr "X"), ("1", .vstr "Z")])).1.score = some 1 ∧
    (gradeQuestion 0 clsHalfQ (.amap [("0", .vstr "X"), ("1", .vstr "Z")])).1.total = some 2 ∧
    (gradeQuestion 0 clsHalfQ (.amap [("0", .vstr "X"), ("1", .vstr "Z")])).1.is_correct = true ∧
    (gradeQuestion 0 fwQ uaAll6).1.score = some 6 ∧
    (gradeQuestion 0 fwQ uaAll6).1.rows_correct = some 1 ∧
    (gradeQuestion 0 fwQ uaAll6).1.rows_total = some 1 ∧
    (gradeQuestion 0 fwQ uaAll6).1.is_correct = true ∧
    (gradeQuestion 0 fwQ ua3).1.score = some 3 ∧
    (gradeQuestion 0 fwQ ua3).1.is_correct = true ∧
    (gradeQuestion 0 fwQ ua2).1.score = some 2 ∧
    (gradeQuestion 0 fwQ ua2).1.is_correct = false :=
  C6_threshold_inclusive 1

/-- `strSetEq` is invariant under permutation of its first list. -/
theorem strSetEq_perm_left (a b c : List String) (h : List.Perm a b) :
    strSetEq a c = strSetEq b c := by
  have hm : ∀ x : String, x ∈ a ↔ x ∈ b := fun x => h.mem_iff
  rw [Bool.eq_iff_iff]
  simp only [strSetEq, List.contains, Bool.and_eq_true, List.all_eq_true, List.elem_iff]
  constructor <;> rintro ⟨h1, h2⟩ <;> refine ⟨fun x hx => ?_, fun x hx => ?_⟩
  · exact h1 x ((hm x).mpr hx)
  · exact (hm x).mp (h2 x hx)
  · exact h1 x ((hm x).mp hx)
  · exact (hm x).mpr (h2 x hx)

/-- `strSetEq` ignores duplicates in its first list. -/
theorem strSetEq_dup (a c : List String) (x : String) :
    strSetEq (x :: x :: a) c = strSetEq (x :: a) c := by
  rw [Bool.eq_iff_iff]
  simp only [strSetEq, List.contains, Bool.and_eq_true, List.all_eq_true, List.elem_iff,
    List.mem_cons]
  constructor <;> rintro ⟨h1, h2⟩ <;> refine ⟨fun y hy => ?_, fun y hy => ?_⟩
  · rcases hy with h | h
    · exact h1 y (Or.inl h)
    · exact h1 y (Or.inr (Or.inr h))
  · rcases h2 y hy with h | h | h
    · exact Or.inl h
    · exact Or.inl h
    · exact Or.inr h
  · rcases hy with h | h | h
    · exact h1 y (Or.inl h)
    · exact h1 y (Or.inl h)
    · exact h1 y (Or.inr h)
  · rcases h2 y hy with h | h
    · exact Or.inl h
    · exact Or.inr (Or.inr h)

/-- Claim C7 counterexample: the real-time pass does not use set equality for
multi-select items. The duplicated reordering ["Y", "X", "X"] of the correct
["X", "Y"] is judged NOT identical by the real-time per-item comparison (raw
list `==`), and the real-time verdict on the one-item question is incorrect —
though the claim requires every grading pass to judge the two identical. -/
theorem C7_counterexample :
    rtItemCorrect [("0", .vlist ["Y", "X", "X"])] "0" (.vlist ["X", "Y"]) = false ∧
    rtVerdict msQ (.amap [("0", .vlist ["Y", "X", "X"])]) = Verdict.incorrect :=
  ⟨by decide, by decide⟩

/-- Claim C7 amended: in the FINAL detailed pass, a multi-select item is judged
correct iff the coerced string sets are equal — order- and
duplicate-independent, with a bare scalar coerced to a singleton and an absent
value to the empty set — so ["X", "Y"] and ["Y", "X", "X"] are both judged
identical to correct ["X", "Y"]; the real-time pass instead compares the raw
values, so the set semantics holds only in the final pass. -/
theorem C7_multiselect_sets (a b c : List String) (x : String) (h : List.Perm a b) :
    strSetEq a c = strSetEq b c ∧
    strSetEq (x :: x :: a) c = strSetEq (x :: a) c ∧
    clsItemCorrect true (.vstr "X") (.vlist ["X"]) = true ∧
    clsItemCorrect true .vnone (.vlist []) = true ∧
    clsItemCorrect true (.vlist ["Y", "X", "X"]) (.vlist ["X", "Y"]) = true ∧
    clsItemCorrect true (.vlist ["X", "Y"]) (.vlist ["X", "Y"]) = true ∧
    (gradeQuestion 0 msQ (.amap [("0", .vlist ["Y", "X", "X"])])).1.is_correct = true ∧
    (gradeQuestion 0 msQ (.amap [("0", .vlist ["X", "Y"])])).1.is_correct = true :=
  ⟨strSetEq_perm_left a b c h, strSetEq_dup a c x, by decide, by decide, by decide,
   by decide, by decide, by decide⟩

theorem C7_witness :
    strSetEq ["X", "Y"] ["X", "Y"] = strSetEq ["Y", "X"] ["X", "Y"] ∧
    strSetEq ["Z", "Z", "X", "Y"] ["X", "Y"] = strSetEq ["Z", "X", "Y"] ["X", "Y"] ∧
    clsItemCorrect true (.vstr "X") (.vlist ["X"]) = true ∧
    clsItemCorrect true .vnone (.vlist []) = true ∧
    clsItemCorrect true (.vlist ["Y", "X", "X"]) (.vlist ["X", "Y"]) = true ∧
    clsItemCorrect true (.vlist ["X", "Y"]) (.vlist ["X", "Y"]) = true ∧
    (gradeQuestion 0 msQ (.amap [("0", .vlist ["Y", "X", "X"])])).1.is_correct = true ∧
    (gradeQuestion 0 msQ (.amap [("0", .vlist ["X", "Y"])])).1.is_correct = true :=
  C7_multiselect_sets ["X", "Y"] ["Y", "X"] ["X", "Y"] "Z" (by decide)

/-- Claim C8 counterexample: a zero-item Classification/Matching question is
NOT treated as unanswered by the final pass: the division by zero is reached,
its exception is caught and recorded as an error marker, and the question is
tallied incorrect. -/
theorem C8_counterexample :
    (gradeQuestion 0 zeroQ (.amap [("0", .vstr "A")])).2 = some false ∧
    ¬ (gradeQuestion 0 zeroQ (.amap [("0", .vstr "A")])).2 = none ∧
    (gradeQuestion 0 zeroQ (.amap [("0", .vstr "A")])).1.error = some "division by zero" ∧
    (gradeQuestion 0 zeroQ (.amap [("0", .vstr "A")])).1.is_correct = false :=
  ⟨by decide, by decide, by decide, by decide⟩

/-- Claim C8 amended: in the final pass a Classification/Matching question with
zero items reaches the `score / total` division with total = 0; the resulting
`ZeroDivisionError` is caught by the surrounding handler, which attaches an
error marker and counts the question incorrect. Only the real-time pass treats
a zero-total (an empty parsed correct-answer mapping) as unanswered, skipping
the division. -/
theorem C8_zero_items (i : Nat) (q q2 : Question) (ca : AnswerDict) (ua : Answer)
    (m : AnswerDict) (hq : q.is_pbq = true)
    (ht : pbqTypeOf q = "Classification/Matching")
    (hd : detailedParse q.correct_answer = .ok ca)
    (h0 : q.pbq_data.matching_items = [])
    (hq2 : q2.is_pbq = true) (hm : m.isEmpty = false)
    (hp2 : rtParse q2.correct_answer = some []) :
    (gradeQuestion i q ua).1.error = some "division by zero" ∧
    (gradeQuestion i q ua).1.is_correct = false ∧
    (gradeQuestion i q ua).2 = some false ∧
    rtVerdict q2 (.amap m) = Verdict.unanswered := by
  have hb : (pbqTypeOf q == "Classification/Matching") = true := by
    rw [ht]; rfl
  refine ⟨?_, ?_, ?_, ?_⟩ <;>
    simp [gradeQuestion, gradeCls, hq, hb, hd, h0, hq2, hm, hp2, rtVerdict]

theorem C8_witness :
    (gradeQuestion 0 zeroQ Answer.anone).1.error = some "division by zero" ∧
    (gradeQuestion 0 zeroQ Answer.anone).1.is_correct = false ∧
    (gradeQuestion 0 zeroQ Answer.anone).2 = some false ∧
    rtVerdict zeroQ (.amap [("0", .vstr "A")]) = Verdict.unanswered :=
  C8_zero_items 0 zeroQ zeroQ [] Answer.anone [("0", .vstr "A")]
    rfl rfl rfl rfl rfl rfl rfl

/-- Claim C9: a PBQ whose `correct_answer` string fails the structured parse is
caught at grading time: its detailed result carries an explicit error marker
instead of an item breakdown, `is_correct` is false, the question counts as
incorrect — and the compilation of all remaining results is unaffected, since
the final pass grades each enumerated question independently. -/
theorem C9_malformed_correct_answer (i : Nat) (q : Question) (ua : Answer) (s : String)
    (qs : List Question) (store : AnswerStore)
    (hq : q.is_pbq = true) (hc : q.correct_answer = .rstr s none)
    (hs : (s == "") = false) :
    (gradeQuestion i q ua).1.error = some "json parse error" ∧
    (gradeQuestion i q ua).1.items = [] ∧
    (gradeQuestion i q ua).1.is_correct = false ∧
    (gradeQuestion i q ua).2 = some false ∧
    (calculate_detailed_results qs store).results =
      qs.enum.map (fun iq => (gradeQuestion iq.1 iq.2 (getAnswer store iq.1)).1) := by
  refine ⟨?_, ?_, ?_, ?_, ?_⟩
  · simp [gradeQuestion, hq, hc, detailedParse, hs]
  · simp [gradeQuestion, hq, hc, detailedParse, hs]
  · simp [gradeQuestion, hq, hc, detailedParse, hs]
  · simp [gradeQuestion, hq, hc, detailedParse, hs]
  · rw [calculate_detailed_results, detailedLoop_results]

theorem C9_witness :
    (gradeQuestion 0 malformedQ Answer.anone).1.error = some "json parse error" ∧
    (gradeQuestion 0 malformedQ Answer.anone).1.items = [] ∧
    (gradeQuestion 0 malformedQ Answer.anone).1.is_correct = false ∧
    (gradeQuestion 0 malformedQ Answer.anone).2 = some false ∧
    (calculate_detailed_results [malformedQ, fwQ] [(1, uaAll6)]).results =
      [malformedQ, fwQ].enum.map
        (fun iq => (gradeQuestion iq.1 iq.2 (getAnswer [(1, uaAll6)] iq.1)).1) :=
  C9_malformed_correct_answer 0 malformedQ Answer.anone "not valid json"
    [malformedQ, fwQ] [(1, uaAll6)] rfl rfl (by decide)

/-- Claim C10 counterexample: the no-None invariant does not hold throughout a
started session. In a freshly started one-question session — still in progress —
the slot of selected index 0 is the empty dict; but displaying the Regular
question before any selection writes the radio widget's `None` into that slot,
after which the store lookup for the selected index returns `None` while
`practice_started` is still true (the real-time pass then takes its
`user_answer is None` branch). -/
theorem C10_counterexample :
    startedRegSession.practice_started = true ∧
    storeLookup startedRegSession.user_answers 0 = some (Answer.amap []) ∧
    (display_regular_write Answer.anone startedRegSession).practice_started = true ∧
    storeLookup (display_regular_write Answer.anone startedRegSession).user_answers 0 =
      some Answer.anone ∧
    getAnswer (display_regular_write Answer.anone startedRegSession).user_answers 0 =
      Answer.anone ∧
    rtVerdict (regQ "A") Answer.anone = Verdict.unanswered :=
  ⟨by decide, by decide, by decide, by decide, by decide, by decide⟩

/-- Claim C10 amended: `start_practice_session` initializes an empty-dict slot
for every selected index, so immediately after start the answer lookup of a
selected index yields the empty mapping — never `None` — Regular questions
included; but the invariant does not persist through the session: once a
Regular question is displayed with no selection, the radio write-back stores
`None` into (or leaves `None` in) its slot, and the lookup for that index reads
as `None` again mid-session. -/
theorem C10_slots_amended (perm : List Question → List Question) (s : SessionState)
    (i : Nat) (h : i < (start_practice_session perm s).selected_questions.length)
    (st : SessionState) :
    storeLookup (start_practice_session perm s).user_answers i = some (Answer.amap []) ∧
    ¬ getAnswer (start_practice_session perm s).user_answers i = Answer.anone ∧
    getAnswer (display_regular_write Answer.anone st).user_answers
      st.current_question_index = Answer.anone := by
  have hua : (start_practice_session perm s).user_answers =
      initSlots (start_practice_session perm s).selected_questions.length := rfl
  have hl : storeLookup (start_practice_session perm s).user_answers i =
      some (Answer.amap []) := by
    rw [hua]
    exact storeLookup_initSlots _ i h
  refine ⟨hl, by simp [getAnswer, hl], ?_⟩
  by_cases hcase : answerPyEq Answer.anone
      (getAnswer st.user_answers st.current_question_index) = true
  · have hst := answerPyEq_anone _ hcase
    simp only [display_regular_write]
    rw [hcase]
    simpa using hst
  · have hf : answerPyEq Answer.anone
        (getAnswer st.user_answers st.current_question_index) = false := by
      simpa using hcase
    simp only [display_regular_write]
    rw [hf]
    simp [getAnswer, storeLookup_storeSet]

theorem C10_witness :
    storeLookup (start_practice_session id prevSession).user_answers 0 =
      some (Answer.amap []) ∧
    ¬ getAnswer (start_practice_session id prevSession).user_answers 0 = Answer.anone ∧
    getAnswer (display_regular_write Answer.anone startedRegSession).user_answers
      startedRegSession.current_question_index = Answer.anone :=
  C10_slots_amended id prevSession 0 (by decide) startedRegSession

end PBQApp
